import Mathlib

/-!
# GameGee: the frame loop of `src/Game/Game.cpp`

A shallow embedding of `Game::Game`, `Game::Initialize`, `Game::ProcessInput`,
`Game::LoadLevel`, `Game::Setup`, `Game::Update`, `Game::Render` and `Game::Run`.

The methods of `Game` call into collaborators (SDL, ImGui, the ECS registry, the
event bus, the asset store) whose code is not part of `Game.cpp`.  Every such call is
recorded as a `Call` in a trace, in program order.  Results that SDL hands back
(`SDL_PollEvent`, `SDL_GetTicks`, the outcome of the SDL initialisation calls) are inputs
of the embedded functions.  `int` and `Uint32` are 32 bits wide.
-/

namespace GameGee

/-! ## Data model -/

/-- The system types of the thirteen `Systems/*.h` headers included by `Game.cpp`. -/
inductive SystemId
  | MovementSystem
  | CameraMovementSystem
  | RenderSystem
  | AnimationSystem
  | CollisionSystem
  | RenderColliderSystem
  | DamageSystem
  | ProjectileEmitSystem
  | KeyboardControlSystem
  | ProjectileLifecycleSystem
  | RenderTextSystem
  | RenderHealthBarSystem
  | RenderGUISystem
  deriving DecidableEq, Repr, Fintype

/-- The component types of the ten `Components/*.h` headers included by `Game.cpp`. -/
inductive ComponentId
  | TransformComponent
  | RigidBodyComponent
  | SpriteComponent
  | AnimationComponent
  | BoxColliderComponent
  | KeyboardControlledComponent
  | CameraFollowComponent
  | ProjectileEmitterComponent
  | HealthComponent
  | TextLabelComponent
  deriving DecidableEq, Repr

/-- The methods of `Game` whose entry is recorded in the trace. -/
inductive Method
  | Setup
  | LoadLevel
  | ProcessInput
  | Update
  | Render
  deriving DecidableEq, Repr

/-- One call made by `Game.cpp`, or the entry of one of its own methods.  Arguments that
never influence the control flow of `Game.cpp` (asset names, vectors, the floating point
`deltaTime`, renderer and camera handles) are left out. -/
inductive Call
  /-- Execution enters a method of `Game`. -/
  | enter (m : Method)
  /-- The call `ImGui_ImplSDL2_ProcessEvent(&sdlEvent)` with the type of the event. -/
  | ImGui_ImplSDL2_ProcessEvent (type : Nat)
  /-- The call `eventBus->EmitEvent<KeyPressedEvent>(sym)`. -/
  | EmitEvent_KeyPressedEvent (sym : Int)
  /-- The call `registry->AddSystem<S>()`. -/
  | AddSystem (s : SystemId)
  /-- The call `assetStore->AddTexture(...)`. -/
  | AddTexture
  /-- The call `assetStore->AddFont(...)`. -/
  | AddFont
  /-- The call `registry->CreateEntity()`. -/
  | CreateEntity
  /-- The call `entity.Tag(...)`. -/
  | Tag
  /-- The call `entity.Group(...)`. -/
  | Group
  /-- The call `entity.AddComponent<C>(...)`. -/
  | AddComponent (c : ComponentId)
  /-- The call `SDL_Delay(ms)`. -/
  | SDL_Delay (ms : Int)
  /-- The call `eventBus->Reset()`. -/
  | EventBus_Reset
  /-- The call `registry->GetSystem<S>()`, returning normally. -/
  | GetSystem (s : SystemId)
  /-- The call `system.SubscribeToEvents(eventBus)` on the system of type `S`. -/
  | SubscribeToEvents (s : SystemId)
  /-- The call `registry->Update()`. -/
  | Registry_Update
  /-- The call `system.Update(...)` on the system of type `S`. -/
  | System_Update (s : SystemId)
  /-- The call `SDL_SetRenderDrawColor(renderer, 21, 21, 21, 255)`. -/
  | SDL_SetRenderDrawColor
  /-- The call `SDL_RenderClear(renderer)`. -/
  | SDL_RenderClear
  /-- The call `SDL_RenderPresent(renderer)`. -/
  | SDL_RenderPresent
  deriving DecidableEq, Repr

/-- The fields of an `SDL_Event` that `Game::ProcessInput` reads: `type`, and
`key.keysym.sym`, which is read only when the type is `SDL_KEYDOWN`. -/
structure SDL_Event where
  type : Nat
  sym : Int
  deriving DecidableEq, Repr

/-- SDL2 constant `SDL_QUIT = 0x100`. -/
def SDL_QUIT : Nat := 256

/-- SDL2 constant `SDL_KEYDOWN = 0x300`. -/
def SDL_KEYDOWN : Nat := 768

/-- SDL2 constant `SDLK_ESCAPE = 27`. -/
def SDLK_ESCAPE : Int := 27

/-- SDL2 constant `SDLK_F1 = SDL_SCANCODE_TO_KEYCODE(58) = 58 | (1 << 30)`. -/
def SDLK_F1 : Int := 1073741882

/-- The ways a call into the registry can fail. -/
inductive GameError
  | SystemNotFound
  deriving DecidableEq, Repr

/-- Modelled from the spec: the part of the `Registry` class (`ECS/ECS.h`, not part of
`Game.cpp`) that holds the systems, "register/retrieve exactly one instance of a system
type".  The list keeps the registered system types in the order they were added. -/
structure Registry where
  systems : List SystemId
  deriving DecidableEq, Repr

/-- Modelled from the spec: `Registry::AddSystem<S>()` of `ECS/ECS.h`, "register exactly one
instance of a system type"; a type that is already registered stays registered once. -/
def Registry.AddSystem (r : Registry) (s : SystemId) : Registry :=
  if s ∈ r.systems then r else { systems := r.systems ++ [s] }

/-- Modelled from the spec: `Registry::GetSystem<S>()` of `ECS/ECS.h`, "GetSystem on an
unregistered type fails with SystemNotFound". -/
def Registry.GetSystem (r : Registry) (s : SystemId) : Except GameError Unit :=
  if s ∈ r.systems then Except.ok () else Except.error GameError.SystemNotFound

/-- The state of a `Game` object that `Game.cpp` reads to decide what it does.
`millisecsPreviousFrame` holds the value of the `int` field. -/
structure Game where
  isRunning : Bool
  isDebug : Bool
  millisecsPreviousFrame : Int
  registry : Registry
  deriving DecidableEq, Repr

/-- The inputs SDL hands to one iteration of the loop of `Game::Run`: the events that
`SDL_PollEvent` returns during `ProcessInput` (until it returns 0), and the results of the
three `SDL_GetTicks()` calls of `Update`. -/
structure Frame where
  events : List SDL_Event
  ticks1 : Nat
  ticks2 : Nat
  ticks3 : Nat
  deriving DecidableEq, Repr

/-! ## 32-bit arithmetic -/

/-- Conversion to `Uint32` / `unsigned int`: reduction modulo `2^32`. -/
def u32 (x : Int) : Int := x % 4294967296

/-- Conversion to `int`: the two's complement reading of the low 32 bits. -/
def i32 (x : Int) : Int :=
  if u32 x < 2147483648 then u32 x else u32 x - 4294967296

/-! ## The methods of `Game` -/

/-- `Game::Game()`: both flags start `false` and the registry is empty.  The initial value
of `millisecsPreviousFrame` comes from `Game.h` and is a parameter. -/
def Game.ctor (millisecsPreviousFrame : Int) : Game :=
  { isRunning := false
    isDebug := false
    millisecsPreviousFrame := millisecsPreviousFrame
    registry := { systems := [] } }

/-- `Game::Initialize()`: `isRunning` becomes `true` unless one of the four checked SDL
calls fails (`SDL_Init`, `TTF_Init`, `SDL_CreateWindow`, `SDL_CreateRenderer`). -/
def Game.Initialize (g : Game) (sdlInitOk ttfInitOk windowOk rendererOk : Bool) : Game :=
  if !sdlInitOk then g
  else if !ttfInitOk then g
  else if !windowOk then g
  else if !rendererOk then g
  else { g with isRunning := true }

/-- The `switch (sdlEvent.type)` of `Game::ProcessInput` for one polled event. -/
def ProcessInput.handle (g : Game) (sdlEvent : SDL_Event) : Game × List Call :=
  if sdlEvent.type = SDL_QUIT then
    ({ g with isRunning := false }, [])
  else if sdlEvent.type = SDL_KEYDOWN then
    let g1 := if sdlEvent.sym = SDLK_ESCAPE then { g with isRunning := false } else g
    let g2 := if sdlEvent.sym = SDLK_F1 then { g1 with isDebug := !g1.isDebug } else g1
    (g2, [Call.EmitEvent_KeyPressedEvent sdlEvent.sym])
  else
    (g, [])

/-- The loop `while (SDL_PollEvent(&sdlEvent))` of `Game::ProcessInput`, over the events
that `SDL_PollEvent` returns.  The ImGui mouse bookkeeping of each round writes only to
ImGui state and is left out. -/
def ProcessInput.poll : Game → List SDL_Event → Game × List Call
  | g, [] => (g, [])
  | g, sdlEvent :: rest =>
    let r1 := ProcessInput.handle g sdlEvent
    let r2 := ProcessInput.poll r1.1 rest
    (r2.1, Call.ImGui_ImplSDL2_ProcessEvent sdlEvent.type :: r1.2 ++ r2.2)

/-- `Game::ProcessInput()`. -/
def Game.ProcessInput (g : Game) (events : List SDL_Event) : Game × List Call :=
  let r := ProcessInput.poll g events
  (r.1, Call.enter Method.ProcessInput :: r.2)

/-- One statement `registry->AddSystem<S>();`. -/
def LoadLevel.addSystem (s : SystemId) (w : Registry × List Call) : Registry × List Call :=
  (w.1.AddSystem s, w.2 ++ [Call.AddSystem s])

/-- The calls of `Game::LoadLevel` after its `AddSystem` block: the assets, the 7 x 9
tiles of the tilemap, and the entities of the level. -/
def LoadLevel.content : List Call :=
  -- Adding assets to the asset store
  [Call.AddTexture, Call.AddTexture, Call.AddTexture, Call.AddTexture, Call.AddTexture,
   Call.AddTexture, Call.AddFont, Call.AddFont, Call.AddFont]
  -- Load the tilemap
  ++ (List.range 7).flatMap (fun _ => (List.range 9).flatMap (fun _ =>
      [Call.CreateEntity, Call.Group,
       Call.AddComponent ComponentId.TransformComponent,
       Call.AddComponent ComponentId.SpriteComponent]))
  -- avenger
  ++ [Call.CreateEntity, Call.Tag,
      Call.AddComponent ComponentId.TransformComponent,
      Call.AddComponent ComponentId.RigidBodyComponent,
      Call.AddComponent ComponentId.SpriteComponent,
      Call.AddComponent ComponentId.AnimationComponent,
      Call.AddComponent ComponentId.BoxColliderComponent,
      Call.AddComponent ComponentId.ProjectileEmitterComponent,
      Call.AddComponent ComponentId.KeyboardControlledComponent,
      Call.AddComponent ComponentId.CameraFollowComponent,
      Call.AddComponent ComponentId.HealthComponent]
  -- radar
  ++ [Call.CreateEntity,
      Call.AddComponent ComponentId.TransformComponent,
      Call.AddComponent ComponentId.RigidBodyComponent,
      Call.AddComponent ComponentId.SpriteComponent,
      Call.AddComponent ComponentId.AnimationComponent]
  -- enemy1
  ++ [Call.CreateEntity, Call.Group,
      Call.AddComponent ComponentId.TransformComponent,
      Call.AddComponent ComponentId.RigidBodyComponent,
      Call.AddComponent ComponentId.SpriteComponent,
      Call.AddComponent ComponentId.BoxColliderComponent,
      Call.AddComponent ComponentId.ProjectileEmitterComponent,
      Call.AddComponent ComponentId.HealthComponent]
  -- the two loops of five meteors
  ++ (List.range 5).flatMap (fun _ =>
      [Call.CreateEntity, Call.Group,
       Call.AddComponent ComponentId.TransformComponent,
       Call.AddComponent ComponentId.RigidBodyComponent,
       Call.AddComponent ComponentId.SpriteComponent,
       Call.AddComponent ComponentId.BoxColliderComponent,
       Call.AddComponent ComponentId.HealthComponent])
  ++ (List.range 5).flatMap (fun _ =>
      [Call.CreateEntity, Call.Group,
       Call.AddComponent ComponentId.TransformComponent,
       Call.AddComponent ComponentId.RigidBodyComponent,
       Call.AddComponent ComponentId.SpriteComponent,
       Call.AddComponent ComponentId.BoxColliderComponent,
       Call.AddComponent ComponentId.HealthComponent])
  -- inviswallL, inviswallR
  ++ [Call.CreateEntity, Call.Group,
      Call.AddComponent ComponentId.TransformComponent,
      Call.AddComponent ComponentId.BoxColliderComponent]
  ++ [Call.CreateEntity, Call.Group,
      Call.AddComponent ComponentId.TransformComponent,
      Call.AddComponent ComponentId.BoxColliderComponent]
  -- label
  ++ [Call.CreateEntity, Call.AddComponent ComponentId.TextLabelComponent]

/-- `Game::LoadLevel(int level)`; the parameter `level` is not read by the body. -/
def Game.LoadLevel (g : Game) (_level : Int) : Game × List Call :=
  let w : Registry × List Call := (g.registry, [Call.enter Method.LoadLevel])
  -- Add the sytems that need to be processed in our game
  let w := LoadLevel.addSystem SystemId.MovementSystem w
  let w := LoadLevel.addSystem SystemId.RenderSystem w
  let w := LoadLevel.addSystem SystemId.AnimationSystem w
  let w := LoadLevel.addSystem SystemId.CollisionSystem w
  let w := LoadLevel.addSystem SystemId.RenderColliderSystem w
  let w := LoadLevel.addSystem SystemId.DamageSystem w
  let w := LoadLevel.addSystem SystemId.KeyboardControlSystem w
  let w := LoadLevel.addSystem SystemId.CameraMovementSystem w
  let w := LoadLevel.addSystem SystemId.ProjectileEmitSystem w
  let w := LoadLevel.addSystem SystemId.ProjectileLifecycleSystem w
  let w := LoadLevel.addSystem SystemId.RenderTextSystem w
  let w := LoadLevel.addSystem SystemId.RenderHealthBarSystem w
  let w := LoadLevel.addSystem SystemId.RenderGUISystem w
  ({ g with registry := w.1 }, w.2 ++ LoadLevel.content)

/-- `Game::Setup()`: `LoadLevel(1)`. -/
def Game.Setup (g : Game) : Game × List Call :=
  let r := Game.LoadLevel g 1
  (r.1, Call.enter Method.Setup :: r.2)

/-- One expression `registry->GetSystem<S>().method(...)`: the lookup, which can fail,
and then the call `c` on the system it returned. -/
def viaSystem (r : Registry) (s : SystemId) (c : Call) (tr : List Call) :
    Except GameError (List Call) :=
  match r.GetSystem s with
  | Except.ok _ => Except.ok (tr ++ [Call.GetSystem s, c])
  | Except.error e => Except.error e

/-- `Game::Update()`.  `MILLISECS_PER_FRAME` is an `int` constant of `Game.h` and is a
parameter; `ticks1`, `ticks2`, `ticks3` are the results of the three `SDL_GetTicks()`
calls.  `deltaTime`, computed from `ticks2`, is a `double` handed to
`MovementSystem::Update` and is not recorded. -/
def Game.Update (MILLISECS_PER_FRAME : Int) (g : Game) (ticks1 _ticks2 ticks3 : Nat) :
    Except GameError (Game × List Call) := do
  let tr := [Call.enter Method.Update]
  -- If we are too fast, waste some time until we reach the MILLISECS_PER_FRAME
  let timeToWait : Int :=
    i32 (u32 MILLISECS_PER_FRAME - u32 (u32 ticks1 - u32 g.millisecsPreviousFrame))
  let tr :=
    if 0 < timeToWait ∧ timeToWait ≤ MILLISECS_PER_FRAME then
      tr ++ [Call.SDL_Delay (u32 timeToWait)]
    else tr
  -- Store the "previous" frame time
  let g1 := { g with millisecsPreviousFrame := i32 ticks3 }
  -- Reset all event handlers for the current frame
  let tr := tr ++ [Call.EventBus_Reset]
  -- Perform the subscription of the events for all systems
  let tr ← viaSystem g1.registry SystemId.MovementSystem
    (Call.SubscribeToEvents SystemId.MovementSystem) tr
  let tr ← viaSystem g1.registry SystemId.DamageSystem
    (Call.SubscribeToEvents SystemId.DamageSystem) tr
  let tr ← viaSystem g1.registry SystemId.KeyboardControlSystem
    (Call.SubscribeToEvents SystemId.KeyboardControlSystem) tr
  let tr ← viaSystem g1.registry SystemId.ProjectileEmitSystem
    (Call.SubscribeToEvents SystemId.ProjectileEmitSystem) tr
  -- Update the registry to process the entities that are waiting to be created/deleted
  let tr := tr ++ [Call.Registry_Update]
  -- Invoke all the systems that need to update
  let tr ← viaSystem g1.registry SystemId.MovementSystem
    (Call.System_Update SystemId.MovementSystem) tr
  let tr ← viaSystem g1.registry SystemId.AnimationSystem
    (Call.System_Update SystemId.AnimationSystem) tr
  let tr ← viaSystem g1.registry SystemId.CollisionSystem
    (Call.System_Update SystemId.CollisionSystem) tr
  let tr ← viaSystem g1.registry SystemId.ProjectileEmitSystem
    (Call.System_Update SystemId.ProjectileEmitSystem) tr
  let tr ← viaSystem g1.registry SystemId.CameraMovementSystem
    (Call.System_Update SystemId.CameraMovementSystem) tr
  let tr ← viaSystem g1.registry SystemId.ProjectileLifecycleSystem
    (Call.System_Update SystemId.ProjectileLifecycleSystem) tr
  pure (g1, tr)

/-- `Game::Render()`. -/
def Game.Render (g : Game) : Except GameError (Game × List Call) := do
  let tr := [Call.enter Method.Render, Call.SDL_SetRenderDrawColor, Call.SDL_RenderClear]
  -- Invoke all the systems that need to render
  let tr ← viaSystem g.registry SystemId.RenderSystem
    (Call.System_Update SystemId.RenderSystem) tr
  let tr ← viaSystem g.registry SystemId.RenderTextSystem
    (Call.System_Update SystemId.RenderTextSystem) tr
  let tr ← viaSystem g.registry SystemId.RenderHealthBarSystem
    (Call.System_Update SystemId.RenderHealthBarSystem) tr
  let tr ←
    if g.isDebug then do
      let tr ← viaSystem g.registry SystemId.RenderColliderSystem
        (Call.System_Update SystemId.RenderColliderSystem) tr
      viaSystem g.registry SystemId.RenderGUISystem
        (Call.System_Update SystemId.RenderGUISystem) tr
    else pure tr
  pure (g, tr ++ [Call.SDL_RenderPresent])

/-- The loop `while (isRunning) { ProcessInput(); Update(); Render(); }` of `Game::Run`,
over the inputs of the iterations that are observed.  The flag is tested at the top of
each iteration; when the list of inputs is used up the result is the state and the trace
after the iterations completed so far. -/
def Run.loop (MILLISECS_PER_FRAME : Int) : Game → List Frame →
    Except GameError (Game × List Call)
  | g, [] => pure (g, [])
  | g, f :: rest =>
    if g.isRunning then do
      let r1 := Game.ProcessInput g f.events
      let r2 ← Game.Update MILLISECS_PER_FRAME r1.1 f.ticks1 f.ticks2 f.ticks3
      let r3 ← Game.Render r2.1
      let r4 ← Run.loop MILLISECS_PER_FRAME r3.1 rest
      pure (r4.1, r1.2 ++ r2.2 ++ r3.2 ++ r4.2)
    else pure (g, [])

/-- `Game::Run()`: `Setup()`, then the loop. -/
def Game.Run (MILLISECS_PER_FRAME : Int) (g : Game) (frames : List Frame) :
    Except GameError (Game × List Call) := do
  let r0 := Game.Setup g
  let r ← Run.loop MILLISECS_PER_FRAME r0.1 frames
  pure (r.1, r0.2 ++ r.2)

/-! ## Reading a trace -/

/-- The system types of the `system.Update(...)` calls of a trace, in order. -/
def systemUpdates (tr : List Call) : List SystemId :=
  tr.filterMap (fun c => match c with
    | Call.System_Update s => some s
    | _ => none)

/-- The system types of the `AddSystem` calls of a trace, in order. -/
def addedSystems (tr : List Call) : List SystemId :=
  tr.filterMap (fun c => match c with
    | Call.AddSystem s => some s
    | _ => none)

/-- The system types of the `GetSystem` calls of a trace, in order. -/
def retrievedSystems (tr : List Call) : List SystemId :=
  tr.filterMap (fun c => match c with
    | Call.GetSystem s => some s
    | _ => none)

/-- The methods of `Game` entered in a trace, in order. -/
def methodEntries (tr : List Call) : List Method :=
  tr.filterMap (fun c => match c with
    | Call.enter m => some m
    | _ => none)

/-- The key symbols of the `KeyPressedEvent` emissions of a trace, in order. -/
def keyEmissions (tr : List Call) : List Int :=
  tr.filterMap (fun c => match c with
    | Call.EmitEvent_KeyPressedEvent sym => some sym
    | _ => none)

/-- The arguments of the `SDL_Delay` calls of a trace, in order. -/
def delays (tr : List Call) : List Int :=
  tr.filterMap (fun c => match c with
    | Call.SDL_Delay ms => some ms
    | _ => none)

/-- A call on the event bus: an emission, `Reset`, or a `SubscribeToEvents`. -/
def isBusCall : Call → Bool
  | Call.EmitEvent_KeyPressedEvent _ => true
  | Call.EventBus_Reset => true
  | Call.SubscribeToEvents _ => true
  | _ => false

/-- The calls that order a frame: `eventBus->Reset()`, `SubscribeToEvents`, the registry
flush `registry->Update()`, and the `Update` of a system. -/
def isFrameStep : Call → Bool
  | Call.EventBus_Reset => true
  | Call.SubscribeToEvents _ => true
  | Call.Registry_Update => true
  | Call.System_Update _ => true
  | _ => false

/-- The registry flush or the `Update` of a system. -/
def isFlushOrSystemUpdate : Call → Bool
  | Call.Registry_Update => true
  | Call.System_Update _ => true
  | _ => false

/-- A quit request: `SDL_QUIT`, or `SDL_KEYDOWN` of the Escape key. -/
def quitRequest (e : SDL_Event) : Bool :=
  decide (e.type = SDL_QUIT ∨ (e.type = SDL_KEYDOWN ∧ e.sym = SDLK_ESCAPE))

/-- A key-down of F1. -/
def isF1Down (e : SDL_Event) : Bool :=
  decide (e.type = SDL_KEYDOWN ∧ e.sym = SDLK_F1)

/-- Every system type is registered. -/
def AllRegistered (r : Registry) : Prop := ∀ s : SystemId, s ∈ r.systems

/-- The number of iterations the loop of `Game::Run` completes on the given inputs when
it is entered with `isRunning = running`: none when the flag is down, otherwise all
iterations up to and including the first whose events hold a quit request. -/
def iterations : Bool → List Frame → Nat
  | false, _ => 0
  | true, [] => 0
  | true, f :: rest => 1 + iterations (!(f.events.any quitRequest)) rest

/-- The calls of one `Game::Update()` that runs to its end. -/
def Update.calls (MILLISECS_PER_FRAME millisecsPreviousFrame : Int) (ticks1 : Nat) :
    List Call :=
  [Call.enter Method.Update]
  ++ (if 0 < i32 (u32 MILLISECS_PER_FRAME - u32 (u32 ticks1 - u32 millisecsPreviousFrame))
        ∧ i32 (u32 MILLISECS_PER_FRAME - u32 (u32 ticks1 - u32 millisecsPreviousFrame))
          ≤ MILLISECS_PER_FRAME
      then [Call.SDL_Delay (u32 (i32 (u32 MILLISECS_PER_FRAME
              - u32 (u32 ticks1 - u32 millisecsPreviousFrame))))]
      else [])
  ++ [Call.EventBus_Reset,
      Call.GetSystem SystemId.MovementSystem,
      Call.SubscribeToEvents SystemId.MovementSystem,
      Call.GetSystem SystemId.DamageSystem,
      Call.SubscribeToEvents SystemId.DamageSystem,
      Call.GetSystem SystemId.KeyboardControlSystem,
      Call.SubscribeToEvents SystemId.KeyboardControlSystem,
      Call.GetSystem SystemId.ProjectileEmitSystem,
      Call.SubscribeToEvents SystemId.ProjectileEmitSystem,
      Call.Registry_Update,
      Call.GetSystem SystemId.MovementSystem,
      Call.System_Update SystemId.MovementSystem,
      Call.GetSystem SystemId.AnimationSystem,
      Call.System_Update SystemId.AnimationSystem,
      Call.GetSystem SystemId.CollisionSystem,
      Call.System_Update SystemId.CollisionSystem,
      Call.GetSystem SystemId.ProjectileEmitSystem,
      Call.System_Update SystemId.ProjectileEmitSystem,
      Call.GetSystem SystemId.CameraMovementSystem,
      Call.System_Update SystemId.CameraMovementSystem,
      Call.GetSystem SystemId.ProjectileLifecycleSystem,
      Call.System_Update SystemId.ProjectileLifecycleSystem]

/-- The calls of one `Game::Render()` that runs to its end. -/
def Render.calls (isDebug : Bool) : List Call :=
  [Call.enter Method.Render, Call.SDL_SetRenderDrawColor, Call.SDL_RenderClear,
   Call.GetSystem SystemId.RenderSystem,
   Call.System_Update SystemId.RenderSystem,
   Call.GetSystem SystemId.RenderTextSystem,
   Call.System_Update SystemId.RenderTextSystem,
   Call.GetSystem SystemId.RenderHealthBarSystem,
   Call.System_Update SystemId.RenderHealthBarSystem]
  ++ (if isDebug then
        [Call.GetSystem SystemId.RenderColliderSystem,
         Call.System_Update SystemId.RenderColliderSystem,
         Call.GetSystem SystemId.RenderGUISystem,
         Call.System_Update SystemId.RenderGUISystem]
      else [])
  ++ [Call.SDL_RenderPresent]

/-- One iteration of the loop of `Game::Run` in which no registry lookup fails. -/
def Run.iteration (MILLISECS_PER_FRAME : Int) (g : Game) (f : Frame) : Game × List Call :=
  ({ (Game.ProcessInput g f.events).1 with millisecsPreviousFrame := i32 f.ticks3 },
   (Game.ProcessInput g f.events).2
    ++ Update.calls MILLISECS_PER_FRAME g.millisecsPreviousFrame f.ticks1
    ++ Render.calls (Game.ProcessInput g f.events).1.isDebug)

/-- The loop of `Game::Run` in which no registry lookup fails. -/
def Run.iterate (MILLISECS_PER_FRAME : Int) : Game → List Frame → Game × List Call
  | g, [] => (g, [])
  | g, f :: rest =>
    if g.isRunning then
      ((Run.iterate MILLISECS_PER_FRAME (Run.iteration MILLISECS_PER_FRAME g f).1 rest).1,
       (Run.iteration MILLISECS_PER_FRAME g f).2
        ++ (Run.iterate MILLISECS_PER_FRAME (Run.iteration MILLISECS_PER_FRAME g f).1 rest).2)
    else (g, [])

/-- System `a` occurs before system `b` in a list of systems. -/
def RunsBefore (a b : SystemId) (l : List SystemId) : Prop :=
  a ∈ l ∧ b ∈ l ∧ l.indexOf a < l.indexOf b

/-- A game that has been constructed and initialised with every SDL call succeeding. -/
def initialisedGame : Game :=
  (Game.ctor 0).Initialize true true true true

/-- The initialised game after `Setup()`: the state in which the first iteration starts. -/
def loadedGame : Game :=
  (Game.Setup initialisedGame).1

/-- A frame in which `SDL_PollEvent` has no event and the tick counter reads 0. -/
def idleFrame : Frame :=
  { events := [], ticks1 := 0, ticks2 := 0, ticks3 := 0 }

/-- The three method entries of one loop iteration. -/
def iterationEntries : List Method :=
  [Method.ProcessInput, Method.Update, Method.Render]

/-- The calls on the event bus of one loop iteration with the given polled events: one
emission for each `SDL_KEYDOWN`, then `Reset`, then the four subscriptions. -/
def iterationBusCalls (f : Frame) : List Call :=
  (f.events.filter (fun e => e.type == SDL_KEYDOWN)).map
      (fun e => Call.EmitEvent_KeyPressedEvent e.sym)
  ++ [Call.EventBus_Reset,
      Call.SubscribeToEvents SystemId.MovementSystem,
      Call.SubscribeToEvents SystemId.DamageSystem,
      Call.SubscribeToEvents SystemId.KeyboardControlSystem,
      Call.SubscribeToEvents SystemId.ProjectileEmitSystem]

/-- The system types of the `SubscribeToEvents` calls of a trace, in order. -/
def subscribedSystems (tr : List Call) : List SystemId :=
  tr.filterMap (fun c => match c with
    | Call.SubscribeToEvents s => some s
    | _ => none)

/-- The thirteen system types in the order of the `AddSystem` statements of
`Game::LoadLevel`. -/
def loadLevelOrder : List SystemId :=
  [SystemId.MovementSystem, SystemId.RenderSystem, SystemId.AnimationSystem,
   SystemId.CollisionSystem, SystemId.RenderColliderSystem, SystemId.DamageSystem,
   SystemId.KeyboardControlSystem, SystemId.CameraMovementSystem,
   SystemId.ProjectileEmitSystem, SystemId.ProjectileLifecycleSystem,
   SystemId.RenderTextSystem, SystemId.RenderHealthBarSystem, SystemId.RenderGUISystem]

/-- A frame in which the only polled event is a key-down of Escape. -/
def escapeFrame : Frame :=
  { events := [{ type := SDL_KEYDOWN, sym := SDLK_ESCAPE }],
    ticks1 := 0, ticks2 := 0, ticks3 := 0 }

/-- The calls of `ProcessInput` for one polled event. -/
def ProcessInput.round (e : SDL_Event) : List Call :=
  Call.ImGui_ImplSDL2_ProcessEvent e.type ::
    (if e.type = SDL_KEYDOWN then [Call.EmitEvent_KeyPressedEvent e.sym] else [])

/-! ## Lemmas on the methods -/

theorem viaSystem_registered (r : Registry) (s : SystemId) (c : Call) (tr : List Call)
    (h : s ∈ r.systems) :
    viaSystem r s c tr = pure (tr ++ [Call.GetSystem s, c]) := by
  simp [viaSystem, Registry.GetSystem, h]
  rfl

theorem handle_registry (g : Game) (e : SDL_Event) :
    (ProcessInput.handle g e).1.registry = g.registry := by
  unfold ProcessInput.handle
  split_ifs <;> rfl

theorem handle_millisecs (g : Game) (e : SDL_Event) :
    (ProcessInput.handle g e).1.millisecsPreviousFrame = g.millisecsPreviousFrame := by
  unfold ProcessInput.handle
  split_ifs <;> rfl

theorem poll_registry (evs : List SDL_Event) (g : Game) :
    (ProcessInput.poll g evs).1.registry = g.registry := by
  induction evs generalizing g with
  | nil => rfl
  | cons e rest ih => simp [ProcessInput.poll, ih, handle_registry]

theorem poll_millisecs (evs : List SDL_Event) (g : Game) :
    (ProcessInput.poll g evs).1.millisecsPreviousFrame = g.millisecsPreviousFrame := by
  induction evs generalizing g with
  | nil => rfl
  | cons e rest ih => simp [ProcessInput.poll, ih, handle_millisecs]

theorem Update_registered (B : Int) (g : Game) (t1 t2 t3 : Nat)
    (h : AllRegistered g.registry) :
    Game.Update B g t1 t2 t3
      = Except.ok ({ g with millisecsPreviousFrame := i32 t3 },
          Update.calls B g.millisecsPreviousFrame t1) := by
  unfold Game.Update Update.calls
  simp only [viaSystem_registered _ _ _ _ (h _), pure_bind]
  split_ifs <;> simp <;> rfl

theorem Render_registered (g : Game) (h : AllRegistered g.registry) :
    Game.Render g = Except.ok (g, Render.calls g.isDebug) := by
  unfold Game.Render Render.calls
  cases hd : g.isDebug <;>
    simp only [viaSystem_registered _ _ _ _ (h _), pure_bind, if_true, if_false,
      Bool.false_eq_true] <;> rfl

theorem ProcessInput_registry (g : Game) (evs : List SDL_Event) :
    (Game.ProcessInput g evs).1.registry = g.registry := by
  simp [Game.ProcessInput, poll_registry]

theorem ProcessInput_millisecs (g : Game) (evs : List SDL_Event) :
    (Game.ProcessInput g evs).1.millisecsPreviousFrame = g.millisecsPreviousFrame := by
  simp [Game.ProcessInput, poll_millisecs]

theorem iteration_registry (B : Int) (g : Game) (f : Frame) :
    (Run.iteration B g f).1.registry = g.registry := by
  simp [Run.iteration, ProcessInput_registry]

theorem loop_registered (B : Int) (frames : List Frame) (g : Game)
    (h : AllRegistered g.registry) :
    Run.loop B g frames = Except.ok (Run.iterate B g frames) := by
  induction frames generalizing g with
  | nil => rfl
  | cons f rest ih =>
    have h1 : AllRegistered (Game.ProcessInput g f.events).1.registry := by
      rw [ProcessInput_registry]; exact h
    have h2 : AllRegistered (Run.iteration B g f).1.registry := by
      rw [iteration_registry]; exact h
    unfold Run.loop Run.iterate
    cases hr : g.isRunning
    · simp; rfl
    · simp only [if_true, Update_registered B _ _ _ _ h1]
      have h3 : AllRegistered
          ({ (Game.ProcessInput g f.events).1 with
              millisecsPreviousFrame := i32 f.ticks3 } : Game).registry := h1
      simp only [bind, Except.bind, Render_registered _ h3]
      have e1 : ({ (Game.ProcessInput g f.events).1 with
              millisecsPreviousFrame := i32 f.ticks3 } : Game) = (Run.iteration B g f).1 := rfl
      rw [e1, ih _ h2]
      simp [Run.iteration, ProcessInput_millisecs, pure, Except.pure]

theorem mem_AddSystem (r : Registry) (s t : SystemId) :
    t ∈ (r.AddSystem s).systems ↔ t = s ∨ t ∈ r.systems := by
  unfold Registry.AddSystem
  by_cases h : s ∈ r.systems
  · simp only [h, if_true]
    constructor
    · exact fun ht => Or.inr ht
    · rintro (rfl | ht)
      · exact h
      · exact ht
  · simp only [h, if_false, List.mem_append, List.mem_singleton]
    exact Or.comm

theorem LoadLevel_registered (g : Game) (level : Int) :
    AllRegistered (Game.LoadLevel g level).1.registry := by
  intro s
  simp only [Game.LoadLevel, LoadLevel.addSystem, mem_AddSystem]
  cases s <;> simp

theorem LoadLevel_calls (g : Game) (level : Int) :
    (Game.LoadLevel g level).2
      = [Call.enter Method.LoadLevel,
         Call.AddSystem SystemId.MovementSystem,
         Call.AddSystem SystemId.RenderSystem,
         Call.AddSystem SystemId.AnimationSystem,
         Call.AddSystem SystemId.CollisionSystem,
         Call.AddSystem SystemId.RenderColliderSystem,
         Call.AddSystem SystemId.DamageSystem,
         Call.AddSystem SystemId.KeyboardControlSystem,
         Call.AddSystem SystemId.CameraMovementSystem,
         Call.AddSystem SystemId.ProjectileEmitSystem,
         Call.AddSystem SystemId.ProjectileLifecycleSystem,
         Call.AddSystem SystemId.RenderTextSystem,
         Call.AddSystem SystemId.RenderHealthBarSystem,
         Call.AddSystem SystemId.RenderGUISystem] ++ LoadLevel.content := by
  simp [Game.LoadLevel, LoadLevel.addSystem]

theorem LoadLevel_flags (g : Game) (level : Int) :
    (Game.LoadLevel g level).1.isRunning = g.isRunning
      ∧ (Game.LoadLevel g level).1.isDebug = g.isDebug
      ∧ (Game.LoadLevel g level).1.millisecsPreviousFrame = g.millisecsPreviousFrame := by
  simp [Game.LoadLevel]

theorem Run_registered (B : Int) (g : Game) (frames : List Frame) :
    Game.Run B g frames
      = Except.ok ((Run.iterate B (Game.Setup g).1 frames).1,
          (Game.Setup g).2 ++ (Run.iterate B (Game.Setup g).1 frames).2) := by
  unfold Game.Run
  have h : AllRegistered (Game.Setup g).1.registry := LoadLevel_registered g 1
  simp only [loop_registered B frames _ h]
  rfl

/-! ## Lemmas on `ProcessInput` -/

theorem handle_isRunning (g : Game) (e : SDL_Event) :
    (ProcessInput.handle g e).1.isRunning = (g.isRunning && !quitRequest e) := by
  rcases e with ⟨ty, sym⟩
  simp only [ProcessInput.handle, quitRequest, SDL_QUIT, SDL_KEYDOWN, SDLK_ESCAPE, SDLK_F1]
  by_cases h1 : ty = 256
  · simp [h1]
  · by_cases h2 : ty = 768
    · by_cases h3 : sym = 27
      · simp [h2, h3]
      · by_cases h4 : sym = 1073741882 <;> simp [h2, h3, h4]
    · simp [h1, h2]

theorem handle_isDebug (g : Game) (e : SDL_Event) :
    (ProcessInput.handle g e).1.isDebug = Bool.xor g.isDebug (isF1Down e) := by
  rcases e with ⟨ty, sym⟩
  simp only [ProcessInput.handle, isF1Down, SDL_QUIT, SDL_KEYDOWN, SDLK_ESCAPE, SDLK_F1]
  by_cases h1 : ty = 256
  · simp [h1]
  · by_cases h2 : ty = 768
    · by_cases h3 : sym = 27
      · simp [h2, h3]
      · by_cases h4 : sym = 1073741882 <;> simp [h2, h3, h4]
    · simp [h1, h2]

theorem handle_calls (g : Game) (e : SDL_Event) :
    (ProcessInput.handle g e).2
      = if e.type = SDL_KEYDOWN then [Call.EmitEvent_KeyPressedEvent e.sym] else [] := by
  rcases e with ⟨ty, sym⟩
  simp only [ProcessInput.handle, SDL_QUIT, SDL_KEYDOWN]
  by_cases h1 : ty = 256
  · simp [h1]
  · by_cases h2 : ty = 768 <;> simp [h1, h2]

theorem poll_isRunning (evs : List SDL_Event) (g : Game) :
    (ProcessInput.poll g evs).1.isRunning = (g.isRunning && !evs.any quitRequest) := by
  induction evs generalizing g with
  | nil => simp [ProcessInput.poll]
  | cons e rest ih =>
    simp only [ProcessInput.poll, ih, handle_isRunning, List.any_cons]
    cases g.isRunning <;> cases quitRequest e <;> simp

theorem poll_isDebug (evs : List SDL_Event) (g : Game) :
    (ProcessInput.poll g evs).1.isDebug
      = Bool.xor g.isDebug (evs.countP isF1Down % 2 == 1) := by
  induction evs generalizing g with
  | nil => simp [ProcessInput.poll]
  | cons e rest ih =>
    simp only [ProcessInput.poll, ih, handle_isDebug, List.countP_cons]
    cases hF : isF1Down e
    · simp
    · rcases Nat.mod_two_eq_zero_or_one (List.countP isF1Down rest) with hp | hp
      · have hq : (List.countP isF1Down rest + 1) % 2 = 1 := by omega
        cases g.isDebug <;> simp [hp, hq]
      · have hq : (List.countP isF1Down rest + 1) % 2 = 0 := by omega
        cases g.isDebug <;> simp [hp, hq]

theorem poll_calls (evs : List SDL_Event) (g : Game) :
    (ProcessInput.poll g evs).2 = evs.flatMap ProcessInput.round := by
  induction evs generalizing g with
  | nil => rfl
  | cons e rest ih => simp [ProcessInput.poll, ih, handle_calls, ProcessInput.round]

theorem keyEmissions_append (a b : List Call) :
    keyEmissions (a ++ b) = keyEmissions a ++ keyEmissions b := by
  simp [keyEmissions, List.filterMap_append]

theorem keyEmissions_rounds (evs : List SDL_Event) :
    keyEmissions (evs.flatMap ProcessInput.round)
      = (evs.filter (fun e => e.type == SDL_KEYDOWN)).map (fun e => e.sym) := by
  induction evs with
  | nil => rfl
  | cons e rest ih =>
    rw [List.flatMap_cons, keyEmissions_append, ih]
    by_cases h : e.type = SDL_KEYDOWN <;> simp [h, keyEmissions, ProcessInput.round]

/-! ## Lemmas on frame pacing -/

theorem timeToWait_pos_iff (B prev : Int) (t1 : Nat) (hB : 0 < B) (hB2 : B < 2147483648) :
    (0 < i32 (u32 B - u32 (u32 t1 - u32 prev))
        ∧ i32 (u32 B - u32 (u32 t1 - u32 prev)) ≤ B)
      ↔ u32 (t1 - prev) < B := by
  unfold i32 u32
  split_ifs <;> omega

theorem timeToWait_value (B prev : Int) (t1 : Nat) (hB : 0 < B) (hB2 : B < 2147483648)
    (h : u32 (t1 - prev) < B) :
    u32 (i32 (u32 B - u32 (u32 t1 - u32 prev))) = B - u32 (t1 - prev) := by
  unfold i32 u32 at *
  split_ifs <;> omega

theorem delays_Update_calls (B prev : Int) (t1 : Nat) (hB : 0 < B) (hB2 : B < 2147483648) :
    delays (Update.calls B prev t1)
      = if u32 (t1 - prev) < B then [B - u32 (t1 - prev)] else [] := by
  by_cases h : u32 (t1 - prev) < B
  · have hc := (timeToWait_pos_iff B prev t1 hB hB2).mpr h
    simp only [Update.calls, hc, and_self, if_true, h]
    simp [delays, timeToWait_value B prev t1 hB hB2 h]
  · have hc : ¬ (0 < i32 (u32 B - u32 (u32 t1 - u32 prev))
        ∧ i32 (u32 B - u32 (u32 t1 - u32 prev)) ≤ B) :=
      fun hc => h ((timeToWait_pos_iff B prev t1 hB hB2).mp hc)
    simp only [Update.calls, hc, if_false, h]
    simp [delays]

theorem systemUpdates_append (a b : List Call) :
    systemUpdates (a ++ b) = systemUpdates a ++ systemUpdates b := by
  simp [systemUpdates, List.filterMap_append]

/-! ## Lemmas on the loop -/

theorem methodEntries_append (a b : List Call) :
    methodEntries (a ++ b) = methodEntries a ++ methodEntries b := by
  simp [methodEntries, List.filterMap_append]

theorem methodEntries_rounds (evs : List SDL_Event) :
    methodEntries (evs.flatMap ProcessInput.round) = [] := by
  induction evs with
  | nil => rfl
  | cons e rest ih =>
    rw [List.flatMap_cons, methodEntries_append, ih]
    by_cases h : e.type = SDL_KEYDOWN <;> simp [h, methodEntries, ProcessInput.round]

theorem methodEntries_Update_calls (B prev : Int) (t1 : Nat) :
    methodEntries (Update.calls B prev t1) = [Method.Update] := by
  unfold Update.calls
  split_ifs <;> rfl

theorem methodEntries_Render_calls (d : Bool) :
    methodEntries (Render.calls d) = [Method.Render] := by
  cases d <;> rfl

theorem methodEntries_iteration (B : Int) (g : Game) (f : Frame) :
    methodEntries (Run.iteration B g f).2 = iterationEntries := by
  simp only [Run.iteration, Game.ProcessInput, poll_calls, methodEntries_append,
    methodEntries_Update_calls, methodEntries_Render_calls]
  have h : methodEntries (Call.enter Method.ProcessInput :: f.events.flatMap ProcessInput.round)
      = [Method.ProcessInput] := by
    have h2 := methodEntries_append [Call.enter Method.ProcessInput]
      (f.events.flatMap ProcessInput.round)
    rw [methodEntries_rounds] at h2
    simpa using h2
  rw [h]
  rfl

theorem iteration_isRunning (B : Int) (g : Game) (f : Frame) :
    (Run.iteration B g f).1.isRunning = (g.isRunning && !f.events.any quitRequest) := by
  simp [Run.iteration, Game.ProcessInput, poll_isRunning]

theorem iteration_isDebug (B : Int) (g : Game) (f : Frame) :
    (Run.iteration B g f).1.isDebug
      = Bool.xor g.isDebug (f.events.countP isF1Down % 2 == 1) := by
  simp [Run.iteration, Game.ProcessInput, poll_isDebug]

theorem iterate_stopped (B : Int) (g : Game) (frames : List Frame)
    (h : g.isRunning = false) : Run.iterate B g frames = (g, []) := by
  cases frames <;> simp [Run.iterate, h]

theorem methodEntries_iterate (B : Int) (frames : List Frame) (g : Game) :
    methodEntries (Run.iterate B g frames).2
      = (List.replicate (iterations g.isRunning frames) iterationEntries).flatten := by
  induction frames generalizing g with
  | nil => cases g.isRunning <;> rfl
  | cons f rest ih =>
    cases hr : g.isRunning
    · simp [Run.iterate, hr, iterations, methodEntries]
    · simp only [Run.iterate, hr, if_true, iterations, methodEntries_append,
        methodEntries_iteration, ih, iteration_isRunning, Bool.true_and]
      rw [Nat.add_comm, List.replicate_succ, List.flatten_cons]

theorem iterate_isRunning (B : Int) (frames : List Frame) (g : Game) :
    (Run.iterate B g frames).1.isRunning
      = (g.isRunning && frames.all (fun f => !f.events.any quitRequest)) := by
  induction frames generalizing g with
  | nil => simp [Run.iterate]
  | cons f rest ih =>
    cases hr : g.isRunning
    · simp [Run.iterate, hr]
    · simp [Run.iterate, hr, ih, iteration_isRunning]

theorem iterate_quit (B : Int) (pre : List Frame) (f : Frame) (post : List Frame) (g : Game)
    (hquit : f.events.any quitRequest = true) :
    Run.iterate B g (pre ++ f :: post) = Run.iterate B g (pre ++ [f]) := by
  induction pre generalizing g with
  | nil =>
    cases hr : g.isRunning
    · simp [Run.iterate, hr]
    · have hs : (Run.iteration B g f).1.isRunning = false := by
        simp [iteration_isRunning, hquit]
      simp [Run.iterate, hr, iterate_stopped B _ _ hs]
  | cons p rest ih =>
    cases hr : g.isRunning
    · simp [Run.iterate, hr]
    · simp [Run.iterate, hr, ih]

theorem iterations_cons (f : Frame) (rest : List Frame) :
    iterations true (f :: rest) = 1 + iterations (!(f.events.any quitRequest)) rest := rfl

theorem iterations_quit (pre : List Frame) (f : Frame) (post : List Frame)
    (hpre : ∀ p ∈ pre, p.events.any quitRequest = false)
    (hquit : f.events.any quitRequest = true) :
    iterations true (pre ++ f :: post) = pre.length + 1 := by
  induction pre with
  | nil =>
    cases post <;> simp [iterations, hquit]
  | cons p rest ih =>
    have hp : p.events.any quitRequest = false := hpre p (List.mem_cons_self _ _)
    have hrest : ∀ q ∈ rest, q.events.any quitRequest = false :=
      fun q hq => hpre q (List.mem_cons_of_mem _ hq)
    rw [List.cons_append, iterations_cons, hp, Bool.not_false, ih hrest, List.length_cons]
    omega

theorem iterations_no_quit (frames : List Frame)
    (h : ∀ p ∈ frames, p.events.any quitRequest = false) :
    iterations true frames = frames.length := by
  induction frames with
  | nil => rfl
  | cons p rest ih =>
    have hp : p.events.any quitRequest = false := h p (List.mem_cons_self _ _)
    have hrest : ∀ q ∈ rest, q.events.any quitRequest = false :=
      fun q hq => h q (List.mem_cons_of_mem _ hq)
    rw [iterations_cons, hp, Bool.not_false, ih hrest, List.length_cons]
    omega

set_option maxRecDepth 100000 in
theorem methodEntries_content : methodEntries LoadLevel.content = [] := by
  decide

theorem methodEntries_Setup (g : Game) :
    methodEntries (Game.Setup g).2 = [Method.Setup, Method.LoadLevel] := by
  simp only [Game.Setup, LoadLevel_calls]
  have h := methodEntries_append [Call.enter Method.Setup, Call.enter Method.LoadLevel,
         Call.AddSystem SystemId.MovementSystem,
         Call.AddSystem SystemId.RenderSystem,
         Call.AddSystem SystemId.AnimationSystem,
         Call.AddSystem SystemId.CollisionSystem,
         Call.AddSystem SystemId.RenderColliderSystem,
         Call.AddSystem SystemId.DamageSystem,
         Call.AddSystem SystemId.KeyboardControlSystem,
         Call.AddSystem SystemId.CameraMovementSystem,
         Call.AddSystem SystemId.ProjectileEmitSystem,
         Call.AddSystem SystemId.ProjectileLifecycleSystem,
         Call.AddSystem SystemId.RenderTextSystem,
         Call.AddSystem SystemId.RenderHealthBarSystem,
         Call.AddSystem SystemId.RenderGUISystem] LoadLevel.content
  rw [methodEntries_content] at h
  exact h

theorem Setup_flags (g : Game) :
    (Game.Setup g).1.isRunning = g.isRunning ∧ (Game.Setup g).1.isDebug = g.isDebug := by
  simp [Game.Setup, Game.LoadLevel]

set_option maxRecDepth 100000 in
theorem content_quiet :
    addedSystems LoadLevel.content = [] ∧ retrievedSystems LoadLevel.content = []
      ∧ subscribedSystems LoadLevel.content = [] ∧ systemUpdates LoadLevel.content = []
      ∧ LoadLevel.content.filter isBusCall = [] := by
  decide

theorem Setup_calls (g : Game) :
    (Game.Setup g).2
      = [Call.enter Method.Setup, Call.enter Method.LoadLevel,
         Call.AddSystem SystemId.MovementSystem,
         Call.AddSystem SystemId.RenderSystem,
         Call.AddSystem SystemId.AnimationSystem,
         Call.AddSystem SystemId.CollisionSystem,
         Call.AddSystem SystemId.RenderColliderSystem,
         Call.AddSystem SystemId.DamageSystem,
         Call.AddSystem SystemId.KeyboardControlSystem,
         Call.AddSystem SystemId.CameraMovementSystem,
         Call.AddSystem SystemId.ProjectileEmitSystem,
         Call.AddSystem SystemId.ProjectileLifecycleSystem,
         Call.AddSystem SystemId.RenderTextSystem,
         Call.AddSystem SystemId.RenderHealthBarSystem,
         Call.AddSystem SystemId.RenderGUISystem] ++ LoadLevel.content := by
  simp [Game.Setup, LoadLevel_calls]

theorem addedSystems_Setup (g : Game) : addedSystems (Game.Setup g).2 = loadLevelOrder := by
  rw [Setup_calls]
  unfold addedSystems
  rw [List.filterMap_append]
  have h := content_quiet.1
  unfold addedSystems at h
  rw [h]
  rfl

theorem retrievedSystems_Setup (g : Game) : retrievedSystems (Game.Setup g).2 = [] := by
  rw [Setup_calls]
  unfold retrievedSystems
  rw [List.filterMap_append]
  have h := content_quiet.2.1
  unfold retrievedSystems at h
  rw [h]
  rfl

theorem subscribedSystems_Setup (g : Game) : subscribedSystems (Game.Setup g).2 = [] := by
  rw [Setup_calls]
  unfold subscribedSystems
  rw [List.filterMap_append]
  have h := content_quiet.2.2.1
  unfold subscribedSystems at h
  rw [h]
  rfl

theorem systemUpdates_Setup (g : Game) : systemUpdates (Game.Setup g).2 = [] := by
  rw [Setup_calls, systemUpdates_append, content_quiet.2.2.2.1]
  rfl

theorem busCalls_Setup (g : Game) : (Game.Setup g).2.filter isBusCall = [] := by
  rw [Setup_calls, List.filter_append, content_quiet.2.2.2.2]
  rfl

theorem busCalls_rounds (evs : List SDL_Event) :
    (evs.flatMap ProcessInput.round).filter isBusCall
      = (evs.filter (fun e => e.type == SDL_KEYDOWN)).map
          (fun e => Call.EmitEvent_KeyPressedEvent e.sym) := by
  induction evs with
  | nil => rfl
  | cons e rest ih =>
    rw [List.flatMap_cons, List.filter_append, ih]
    by_cases h : e.type = SDL_KEYDOWN <;> simp [h, isBusCall, ProcessInput.round]

theorem busCalls_Update_calls (B prev : Int) (t1 : Nat) :
    (Update.calls B prev t1).filter isBusCall
      = [Call.EventBus_Reset,
         Call.SubscribeToEvents SystemId.MovementSystem,
         Call.SubscribeToEvents SystemId.DamageSystem,
         Call.SubscribeToEvents SystemId.KeyboardControlSystem,
         Call.SubscribeToEvents SystemId.ProjectileEmitSystem] := by
  unfold Update.calls
  split_ifs <;> rfl

theorem busCalls_Render_calls (d : Bool) : (Render.calls d).filter isBusCall = [] := by
  cases d <;> rfl

theorem busCalls_iteration (B : Int) (g : Game) (f : Frame) :
    (Run.iteration B g f).2.filter isBusCall = iterationBusCalls f := by
  simp only [Run.iteration, Game.ProcessInput, poll_calls, List.filter_append,
    busCalls_Update_calls, busCalls_Render_calls, List.append_nil, iterationBusCalls]
  have h : (Call.enter Method.ProcessInput :: f.events.flatMap ProcessInput.round).filter
      isBusCall = (f.events.flatMap ProcessInput.round).filter isBusCall := rfl
  rw [h, busCalls_rounds]

theorem busCalls_iterate (B : Int) (frames : List Frame) (g : Game) :
    (Run.iterate B g frames).2.filter isBusCall
      = (frames.take (iterations g.isRunning frames)).flatMap iterationBusCalls := by
  induction frames generalizing g with
  | nil => cases g.isRunning <;> rfl
  | cons f rest ih =>
    cases hr : g.isRunning
    · simp [Run.iterate, hr, iterations]
    · simp only [Run.iterate, hr, if_true, List.filter_append, busCalls_iteration, ih,
        iteration_isRunning, Bool.true_and, iterations_cons]
      rw [Nat.add_comm, List.take_succ_cons, List.flatMap_cons]

theorem addedSystems_append (a b : List Call) :
    addedSystems (a ++ b) = addedSystems a ++ addedSystems b := by
  simp [addedSystems, List.filterMap_append]

theorem addedSystems_rounds (evs : List SDL_Event) :
    addedSystems (evs.flatMap ProcessInput.round) = [] := by
  induction evs with
  | nil => rfl
  | cons e rest ih =>
    rw [List.flatMap_cons, addedSystems_append, ih]
    by_cases h : e.type = SDL_KEYDOWN <;> simp [h, addedSystems, ProcessInput.round]

theorem addedSystems_Update_calls (B prev : Int) (t1 : Nat) :
    addedSystems (Update.calls B prev t1) = [] := by
  unfold Update.calls
  split_ifs <;> rfl

theorem addedSystems_Render_calls (d : Bool) : addedSystems (Render.calls d) = [] := by
  cases d <;> rfl

theorem addedSystems_iteration (B : Int) (g : Game) (f : Frame) :
    addedSystems (Run.iteration B g f).2 = [] := by
  simp only [Run.iteration, Game.ProcessInput, poll_calls, addedSystems_append,
    addedSystems_Update_calls, addedSystems_Render_calls, List.append_nil]
  have h := addedSystems_append [Call.enter Method.ProcessInput]
    (f.events.flatMap ProcessInput.round)
  rw [addedSystems_rounds] at h
  simpa using h

theorem addedSystems_iterate (B : Int) (frames : List Frame) (g : Game) :
    addedSystems (Run.iterate B g frames).2 = [] := by
  induction frames generalizing g with
  | nil => rfl
  | cons f rest ih =>
    cases hr : g.isRunning
    · simp [Run.iterate, hr, addedSystems]
    · simp [Run.iterate, hr, addedSystems_append, addedSystems_iteration, ih]

theorem count_loadLevelOrder (s : SystemId) : loadLevelOrder.count s = 1 := by
  cases s <;> decide

theorem Setup_snd (g : Game) :
    (Game.Setup g).2 = Call.enter Method.Setup :: (Game.LoadLevel g 1).2 := rfl

theorem addedSystems_LoadLevel (g : Game) (level : Int) :
    addedSystems (Game.LoadLevel g level).2 = loadLevelOrder := by
  rw [LoadLevel_calls, addedSystems_append, content_quiet.1]
  rfl

theorem retrievedSystems_LoadLevel (g : Game) (level : Int) :
    retrievedSystems (Game.LoadLevel g level).2 = [] := by
  rw [LoadLevel_calls]
  unfold retrievedSystems
  rw [List.filterMap_append]
  have h := content_quiet.2.1
  unfold retrievedSystems at h
  rw [h]
  rfl

theorem subscribedSystems_LoadLevel (g : Game) (level : Int) :
    subscribedSystems (Game.LoadLevel g level).2 = [] := by
  rw [LoadLevel_calls]
  unfold subscribedSystems
  rw [List.filterMap_append]
  have h := content_quiet.2.2.1
  unfold subscribedSystems at h
  rw [h]
  rfl

theorem filter_frameStep_Update_calls (B prev : Int) (t1 : Nat) :
    (Update.calls B prev t1).filter isFrameStep
      = [Call.EventBus_Reset,
         Call.SubscribeToEvents SystemId.MovementSystem,
         Call.SubscribeToEvents SystemId.DamageSystem,
         Call.SubscribeToEvents SystemId.KeyboardControlSystem,
         Call.SubscribeToEvents SystemId.ProjectileEmitSystem,
         Call.Registry_Update,
         Call.System_Update SystemId.MovementSystem,
         Call.System_Update SystemId.AnimationSystem,
         Call.System_Update SystemId.CollisionSystem,
         Call.System_Update SystemId.ProjectileEmitSystem,
         Call.System_Update SystemId.CameraMovementSystem,
         Call.System_Update SystemId.ProjectileLifecycleSystem] := by
  unfold Update.calls
  split_ifs <;> rfl

theorem filter_frameStep_Render_calls (d : Bool) :
    (Render.calls d).filter isFrameStep
      = (systemUpdates (Render.calls d)).map Call.System_Update := by
  cases d <;> rfl

theorem filter_flush_Update_calls (B prev : Int) (t1 : Nat) :
    (Update.calls B prev t1).filter isFlushOrSystemUpdate
      = [Call.Registry_Update,
         Call.System_Update SystemId.MovementSystem,
         Call.System_Update SystemId.AnimationSystem,
         Call.System_Update SystemId.CollisionSystem,
         Call.System_Update SystemId.ProjectileEmitSystem,
         Call.System_Update SystemId.CameraMovementSystem,
         Call.System_Update SystemId.ProjectileLifecycleSystem] := by
  unfold Update.calls
  split_ifs <;> rfl

theorem count_flush_Update_calls (B prev : Int) (t1 : Nat) :
    (Update.calls B prev t1).count Call.Registry_Update = 1 := by
  unfold Update.calls
  split_ifs <;> simp

theorem systemUpdates_Update_calls (B prev : Int) (t1 : Nat) :
    systemUpdates (Update.calls B prev t1)
      = [SystemId.MovementSystem, SystemId.AnimationSystem, SystemId.CollisionSystem,
         SystemId.ProjectileEmitSystem, SystemId.CameraMovementSystem,
         SystemId.ProjectileLifecycleSystem] := by
  unfold Update.calls
  split_ifs <;> rfl

theorem systemUpdates_Render_calls (d : Bool) :
    systemUpdates (Render.calls d)
      = [SystemId.RenderSystem, SystemId.RenderTextSystem, SystemId.RenderHealthBarSystem]
        ++ (if d then [SystemId.RenderColliderSystem, SystemId.RenderGUISystem] else []) := by
  cases d <;> rfl

theorem filter_flush_Render_calls (d : Bool) :
    (Render.calls d).filter isFlushOrSystemUpdate
      = [Call.System_Update SystemId.RenderSystem,
         Call.System_Update SystemId.RenderTextSystem,
         Call.System_Update SystemId.RenderHealthBarSystem]
        ++ (if d then [Call.System_Update SystemId.RenderColliderSystem,
                       Call.System_Update SystemId.RenderGUISystem] else []) := by
  cases d <;> rfl

theorem loadedGame_registered : AllRegistered loadedGame.registry :=
  LoadLevel_registered initialisedGame 1

theorem systemUpdates_idle_run :
    systemUpdates ((Game.Setup initialisedGame).2
        ++ (Run.iterate 16 (Game.Setup initialisedGame).1 [idleFrame]).2)
      = [SystemId.MovementSystem, SystemId.AnimationSystem, SystemId.CollisionSystem,
         SystemId.ProjectileEmitSystem, SystemId.CameraMovementSystem,
         SystemId.ProjectileLifecycleSystem, SystemId.RenderSystem,
         SystemId.RenderTextSystem, SystemId.RenderHealthBarSystem] := by
  rw [systemUpdates_append, systemUpdates_Setup]
  have hr : (Game.Setup initialisedGame).1.isRunning = true := rfl
  have hd : (Game.ProcessInput (Game.Setup initialisedGame).1 idleFrame.events).1.isDebug
      = false := rfl
  simp only [Run.iterate, hr, if_true, Run.iteration, systemUpdates_append,
    systemUpdates_Update_calls, systemUpdates_Render_calls, hd]
  rfl

theorem addedSystems_idle_run :
    addedSystems ((Game.Setup initialisedGame).2
        ++ (Run.iterate 16 (Game.Setup initialisedGame).1 [idleFrame]).2)
      = loadLevelOrder := by
  rw [addedSystems_append, addedSystems_Setup, addedSystems_iterate]
  rfl

/-! ## The claims -/

/-- C1, as stated, fails: in the single frame of a run with one idle iteration,
ProjectileEmitSystem is updated before CameraMovementSystem, although `LoadLevel` added
CameraMovementSystem before ProjectileEmitSystem. -/
theorem C1_counterexample :
    ∃ g1 tr, Game.Run 16 initialisedGame [idleFrame] = Except.ok (g1, tr)
      ∧ ¬ (∀ a b : SystemId, RunsBefore a b (systemUpdates tr) →
            RunsBefore a b (addedSystems tr)) := by
  refine ⟨_, _, Run_registered 16 initialisedGame [idleFrame], ?_⟩
  rw [systemUpdates_idle_run, addedSystems_idle_run]
  intro h
  have h1 := h SystemId.ProjectileEmitSystem SystemId.CameraMovementSystem
    ⟨by decide, by decide, by decide⟩
  exact absurd h1.2.2 (by decide)

/-- C1, in the form that holds: in every frame the system `Update` calls made by `Game::Update`
followed by `Game::Render` occur in the order written in those two methods: Movement,
Animation, Collision, ProjectileEmit, CameraMovement, ProjectileLifecycle, Render,
RenderText, RenderHealthBar, and then, only when `isDebug` holds, RenderCollider and
RenderGUI.  The order does not depend on the inputs of the frame. -/
theorem C1_system_updates_in_written_order (B : Int) (g : Game) (t1 t2 t3 : Nat)
    (hreg : AllRegistered g.registry) :
    ∃ g1 trU g2 trR, Game.Update B g t1 t2 t3 = Except.ok (g1, trU)
      ∧ Game.Render g1 = Except.ok (g2, trR)
      ∧ systemUpdates (trU ++ trR)
          = [SystemId.MovementSystem, SystemId.AnimationSystem, SystemId.CollisionSystem,
             SystemId.ProjectileEmitSystem, SystemId.CameraMovementSystem,
             SystemId.ProjectileLifecycleSystem, SystemId.RenderSystem,
             SystemId.RenderTextSystem, SystemId.RenderHealthBarSystem]
            ++ (if g.isDebug then [SystemId.RenderColliderSystem, SystemId.RenderGUISystem]
                else []) := by
  refine ⟨_, _, _, _, Update_registered B g t1 t2 t3 hreg, Render_registered _ hreg, ?_⟩
  rw [systemUpdates_append, systemUpdates_Update_calls, systemUpdates_Render_calls]
  rfl

/-- C1, instance: the order of the system updates of a frame that starts from the loaded
game, where every system is registered. -/
theorem C1_system_updates_in_written_order_witness :
    AllRegistered loadedGame.registry
      ∧ ∃ g1 trU g2 trR, Game.Update 16 loadedGame 0 0 0 = Except.ok (g1, trU)
        ∧ Game.Render g1 = Except.ok (g2, trR)
        ∧ systemUpdates (trU ++ trR)
            = [SystemId.MovementSystem, SystemId.AnimationSystem, SystemId.CollisionSystem,
               SystemId.ProjectileEmitSystem, SystemId.CameraMovementSystem,
               SystemId.ProjectileLifecycleSystem, SystemId.RenderSystem,
               SystemId.RenderTextSystem, SystemId.RenderHealthBarSystem]
              ++ (if loadedGame.isDebug
                  then [SystemId.RenderColliderSystem, SystemId.RenderGUISystem]
                  else []) :=
  ⟨loadedGame_registered,
    C1_system_updates_in_written_order 16 loadedGame 0 0 0 loadedGame_registered⟩

/-- C2: `Game::Run` executes `Setup` (and so `LoadLevel`) exactly once, before the
first loop iteration, and every iteration executes exactly `ProcessInput`, `Update`,
`Render`, in that order: for every list of frame inputs `Run` runs without failure and the
methods it enters are `Setup`, `LoadLevel`, followed by `n` repetitions of (`ProcessInput`,
`Update`, `Render`), `n` being the number of iterations completed; `LoadLevel` is entered
nowhere else. -/
theorem C2_run_is_setup_then_iterations (B : Int) (g : Game) (frames : List Frame) :
    ∃ g1 tr, Game.Run B g frames = Except.ok (g1, tr)
      ∧ methodEntries tr
          = Method.Setup :: Method.LoadLevel ::
              (List.replicate (iterations g.isRunning frames)
                [Method.ProcessInput, Method.Update, Method.Render]).flatten
      ∧ (methodEntries tr).count Method.Setup = 1
      ∧ (methodEntries tr).count Method.LoadLevel = 1 := by
  have hE : methodEntries ((Game.Setup g).2 ++ (Run.iterate B (Game.Setup g).1 frames).2)
      = Method.Setup :: Method.LoadLevel ::
          (List.replicate (iterations g.isRunning frames)
            [Method.ProcessInput, Method.Update, Method.Render]).flatten := by
    rw [methodEntries_append, methodEntries_Setup, methodEntries_iterate, (Setup_flags g).1]
    rfl
  refine ⟨_, _, Run_registered B g frames, hE, ?_, ?_⟩
  · rw [hE]
    have h0 : ∀ n, (List.replicate n
        [Method.ProcessInput, Method.Update, Method.Render]).flatten.count Method.Setup = 0 := by
      intro n
      induction n with
      | zero => rfl
      | succ k ih => rw [List.replicate_succ, List.flatten_cons, List.count_append, ih]; rfl
    simp [h0]
  · rw [hE]
    have h0 : ∀ n, (List.replicate n
        [Method.ProcessInput, Method.Update, Method.Render]).flatten.count Method.LoadLevel
          = 0 := by
      intro n
      induction n with
      | zero => rfl
      | succ k ih => rw [List.replicate_succ, List.flatten_cons, List.count_append, ih]; rfl
    simp [h0]

/-- C3: in every call of `Game::Update` the registry flush `registry->Update()` is
called exactly once (and `Game::Render` does not call it), and it comes before every
system `Update` call of the frame: the flush and the system `Update` calls of
`Game::Update` followed by `Game::Render` are, in order, the flush, the six system updates
of `Game::Update`, and the system updates of `Game::Render`. -/
theorem C3_flush_once_before_system_updates (B : Int) (g : Game) (t1 t2 t3 : Nat)
    (hreg : AllRegistered g.registry) :
    ∃ g1 trU g2 trR, Game.Update B g t1 t2 t3 = Except.ok (g1, trU)
      ∧ Game.Render g1 = Except.ok (g2, trR)
      ∧ trU.count Call.Registry_Update = 1
      ∧ trR.count Call.Registry_Update = 0
      ∧ (trU ++ trR).filter isFlushOrSystemUpdate
          = [Call.Registry_Update,
             Call.System_Update SystemId.MovementSystem,
             Call.System_Update SystemId.AnimationSystem,
             Call.System_Update SystemId.CollisionSystem,
             Call.System_Update SystemId.ProjectileEmitSystem,
             Call.System_Update SystemId.CameraMovementSystem,
             Call.System_Update SystemId.ProjectileLifecycleSystem,
             Call.System_Update SystemId.RenderSystem,
             Call.System_Update SystemId.RenderTextSystem,
             Call.System_Update SystemId.RenderHealthBarSystem]
            ++ (if g.isDebug then [Call.System_Update SystemId.RenderColliderSystem,
                                   Call.System_Update SystemId.RenderGUISystem]
                else []) := by
  refine ⟨_, _, _, _, Update_registered B g t1 t2 t3 hreg, Render_registered _ hreg,
    count_flush_Update_calls B _ t1, ?_, ?_⟩
  · cases hd : g.isDebug <;> simp [Render.calls, hd]
  · rw [List.filter_append, filter_flush_Update_calls, filter_flush_Render_calls]
    rfl

/-- C3, instance: the flush and the system updates of a frame that starts from the
loaded game, where every system is registered. -/
theorem C3_flush_once_before_system_updates_witness :
    AllRegistered loadedGame.registry
      ∧ ∃ g1 trU g2 trR, Game.Update 16 loadedGame 0 0 0 = Except.ok (g1, trU)
        ∧ Game.Render g1 = Except.ok (g2, trR)
        ∧ trU.count Call.Registry_Update = 1
        ∧ trR.count Call.Registry_Update = 0
        ∧ (trU ++ trR).filter isFlushOrSystemUpdate
            = [Call.Registry_Update,
               Call.System_Update SystemId.MovementSystem,
               Call.System_Update SystemId.AnimationSystem,
               Call.System_Update SystemId.CollisionSystem,
               Call.System_Update SystemId.ProjectileEmitSystem,
               Call.System_Update SystemId.CameraMovementSystem,
               Call.System_Update SystemId.ProjectileLifecycleSystem,
               Call.System_Update SystemId.RenderSystem,
               Call.System_Update SystemId.RenderTextSystem,
               Call.System_Update SystemId.RenderHealthBarSystem]
              ++ (if loadedGame.isDebug
                  then [Call.System_Update SystemId.RenderColliderSystem,
                        Call.System_Update SystemId.RenderGUISystem]
                  else []) :=
  ⟨loadedGame_registered,
    C3_flush_once_before_system_updates 16 loadedGame 0 0 0 loadedGame_registered⟩

/-- C4: in every call of `Game::Update`, `eventBus->Reset()` is called exactly once
and before any `SubscribeToEvents`; after it MovementSystem, DamageSystem,
KeyboardControlSystem and ProjectileEmitSystem subscribe, each exactly once; all of this
comes before the registry flush and before every system `Update` of the frame: the bus
resets, subscriptions, flushes and system updates of `Game::Update` are, in order, exactly
the first list below, and those of the `Game::Render` that follows are system updates
only. -/
theorem C4_reset_then_subscribe_then_flush (B : Int) (g : Game) (t1 t2 t3 : Nat)
    (hreg : AllRegistered g.registry) :
    ∃ g1 trU g2 trR, Game.Update B g t1 t2 t3 = Except.ok (g1, trU)
      ∧ Game.Render g1 = Except.ok (g2, trR)
      ∧ trU.filter isFrameStep
          = [Call.EventBus_Reset,
             Call.SubscribeToEvents SystemId.MovementSystem,
             Call.SubscribeToEvents SystemId.DamageSystem,
             Call.SubscribeToEvents SystemId.KeyboardControlSystem,
             Call.SubscribeToEvents SystemId.ProjectileEmitSystem,
             Call.Registry_Update,
             Call.System_Update SystemId.MovementSystem,
             Call.System_Update SystemId.AnimationSystem,
             Call.System_Update SystemId.CollisionSystem,
             Call.System_Update SystemId.ProjectileEmitSystem,
             Call.System_Update SystemId.CameraMovementSystem,
             Call.System_Update SystemId.ProjectileLifecycleSystem]
      ∧ trR.filter isFrameStep = (systemUpdates trR).map Call.System_Update := by
  refine ⟨_, _, _, _, Update_registered B g t1 t2 t3 hreg, Render_registered _ hreg,
    filter_frameStep_Update_calls B _ t1, filter_frameStep_Render_calls _⟩

/-- C4, instance: the steps of `Game::Update` and `Game::Render` called on the loaded
game, where every system is registered. -/
theorem C4_reset_then_subscribe_then_flush_witness :
    AllRegistered loadedGame.registry
      ∧ ∃ g1 trU g2 trR, Game.Update 16 loadedGame 0 0 0 = Except.ok (g1, trU)
        ∧ Game.Render g1 = Except.ok (g2, trR)
        ∧ trU.filter isFrameStep
            = [Call.EventBus_Reset,
               Call.SubscribeToEvents SystemId.MovementSystem,
               Call.SubscribeToEvents SystemId.DamageSystem,
               Call.SubscribeToEvents SystemId.KeyboardControlSystem,
               Call.SubscribeToEvents SystemId.ProjectileEmitSystem,
               Call.Registry_Update,
               Call.System_Update SystemId.MovementSystem,
               Call.System_Update SystemId.AnimationSystem,
               Call.System_Update SystemId.CollisionSystem,
               Call.System_Update SystemId.ProjectileEmitSystem,
               Call.System_Update SystemId.CameraMovementSystem,
               Call.System_Update SystemId.ProjectileLifecycleSystem]
        ∧ trR.filter isFrameStep = (systemUpdates trR).map Call.System_Update :=
  ⟨loadedGame_registered,
    C4_reset_then_subscribe_then_flush 16 loadedGame 0 0 0 loadedGame_registered⟩

/-- C5: the frame loop stops exactly on a quit request.  After `Game::ProcessInput`,
`isRunning` is false iff it was false before or a polled event is `SDL_QUIT` or an
`SDL_KEYDOWN` of Escape; `Update` and `Render` leave the flag as it is.  When `Run` starts
with the flag up and the inputs of the first iterations hold no quit request, all of these
iterations run and the flag is still up; the iteration whose `ProcessInput` polls the quit
request still runs its `Update` and `Render`, and is the last one, whatever inputs would
follow. -/
theorem C5_loop_stops_on_quit_request (B : Int) (g0 g : Game) (evs : List SDL_Event)
    (t1 t2 t3 : Nat) (pre : List Frame) (f : Frame) (post : List Frame)
    (hreg : AllRegistered g0.registry)
    (hrun : g.isRunning = true)
    (hpre : ∀ p ∈ pre, p.events.any quitRequest = false)
    (hquit : f.events.any quitRequest = true) :
    ((Game.ProcessInput g0 evs).1.isRunning = false
        ↔ (g0.isRunning = false ∨ ∃ e ∈ evs, quitRequest e = true))
      ∧ (∃ g1 tr, Game.Update B g0 t1 t2 t3 = Except.ok (g1, tr)
          ∧ g1.isRunning = g0.isRunning)
      ∧ (∃ g1 tr, Game.Render g0 = Except.ok (g1, tr) ∧ g1.isRunning = g0.isRunning)
      ∧ (∃ g1 tr, Game.Run B g pre = Except.ok (g1, tr)
          ∧ g1.isRunning = true
          ∧ methodEntries tr
              = Method.Setup :: Method.LoadLevel ::
                  (List.replicate pre.length
                    [Method.ProcessInput, Method.Update, Method.Render]).flatten)
      ∧ (∃ g1 tr, Game.Run B g (pre ++ f :: post) = Except.ok (g1, tr)
          ∧ Game.Run B g (pre ++ [f]) = Except.ok (g1, tr)
          ∧ g1.isRunning = false
          ∧ methodEntries tr
              = Method.Setup :: Method.LoadLevel ::
                  (List.replicate (pre.length + 1)
                    [Method.ProcessInput, Method.Update, Method.Render]).flatten) := by
  have hS : (Game.Setup g).1.isRunning = true := by rw [(Setup_flags g).1]; exact hrun
  refine ⟨?_, ⟨_, _, Update_registered B g0 t1 t2 t3 hreg, rfl⟩,
    ⟨_, _, Render_registered g0 hreg, rfl⟩, ?_, ?_⟩
  · simp only [Game.ProcessInput, poll_isRunning]
    cases g0.isRunning <;> simp
  · refine ⟨_, _, Run_registered B g pre, ?_, ?_⟩
    · rw [iterate_isRunning, hS]
      simp only [Bool.true_and, List.all_eq_true]
      intro p hp
      rw [hpre p hp]
      rfl
    · rw [methodEntries_append, methodEntries_Setup, methodEntries_iterate, hS,
        iterations_no_quit pre hpre]
      rfl
  · refine ⟨_, _, Run_registered B g (pre ++ f :: post), ?_, ?_, ?_⟩
    · rw [Run_registered B g (pre ++ [f]), iterate_quit B pre f post _ hquit]
    · rw [iterate_isRunning, hS]
      simp only [Bool.true_and, List.all_append, List.all_cons, hquit]
      simp
    · rw [methodEntries_append, methodEntries_Setup, methodEntries_iterate, hS,
        iterations_quit pre f post hpre hquit]
      rfl

/-- C5, instance: a run of the initialised game over an idle frame, a frame with a
key-down of Escape, and two more idle frames stops after the second iteration. -/
theorem C5_loop_stops_on_quit_request_witness :
    AllRegistered loadedGame.registry
      ∧ initialisedGame.isRunning = true
      ∧ (∀ p ∈ [idleFrame], p.events.any quitRequest = false)
      ∧ escapeFrame.events.any quitRequest = true
      ∧ ((Game.ProcessInput loadedGame escapeFrame.events).1.isRunning = false
          ↔ (loadedGame.isRunning = false
              ∨ ∃ e ∈ escapeFrame.events, quitRequest e = true))
      ∧ (∃ g1 tr, Game.Update 16 loadedGame 0 0 0 = Except.ok (g1, tr)
          ∧ g1.isRunning = loadedGame.isRunning)
      ∧ (∃ g1 tr, Game.Render loadedGame = Except.ok (g1, tr)
          ∧ g1.isRunning = loadedGame.isRunning)
      ∧ (∃ g1 tr, Game.Run 16 initialisedGame [idleFrame] = Except.ok (g1, tr)
          ∧ g1.isRunning = true
          ∧ methodEntries tr
              = Method.Setup :: Method.LoadLevel ::
                  (List.replicate [idleFrame].length
                    [Method.ProcessInput, Method.Update, Method.Render]).flatten)
      ∧ (∃ g1 tr,
          Game.Run 16 initialisedGame ([idleFrame] ++ escapeFrame :: [idleFrame, idleFrame])
            = Except.ok (g1, tr)
          ∧ Game.Run 16 initialisedGame ([idleFrame] ++ [escapeFrame]) = Except.ok (g1, tr)
          ∧ g1.isRunning = false
          ∧ methodEntries tr
              = Method.Setup :: Method.LoadLevel ::
                  (List.replicate ([idleFrame].length + 1)
                    [Method.ProcessInput, Method.Update, Method.Render]).flatten) :=
  ⟨loadedGame_registered, rfl, by decide, by decide,
    C5_loop_stops_on_quit_request 16 loadedGame initialisedGame escapeFrame.events 0 0 0
      [idleFrame] escapeFrame [idleFrame, idleFrame] loadedGame_registered rfl
      (by decide) (by decide)⟩

/-- C6: for every sequence of events polled by `Game::ProcessInput`, the
`KeyPressedEvent` emissions on the event bus are, in polling order, exactly the key
symbols of the `SDL_KEYDOWN` events of the sequence (Escape and F1 included), one emission
per such event; events of any other type cause no emission. -/
theorem C6_key_emissions_one_per_keydown (g : Game) (evs : List SDL_Event) :
    keyEmissions (Game.ProcessInput g evs).2
      = (evs.filter (fun e => e.type == SDL_KEYDOWN)).map (fun e => e.sym) := by
  simp only [Game.ProcessInput, poll_calls]
  exact keyEmissions_rounds evs

/-- C7: `Game::LoadLevel` registers each of its thirteen system types exactly once,
and `Game::Run` makes these registrations in `Setup`, before the first iteration, where no
system is looked up yet; no system is added inside the loop, and every system type that the
loop retrieves with `GetSystem` or asks to `SubscribeToEvents` is among the registered
ones.  With a registry in which `GetSystem` fails only for unregistered types, `Run`
never takes the `SystemNotFound` branch. -/
theorem C7_systems_registered_before_use (B : Int) (g : Game) (frames : List Frame)
    (level : Int) :
    addedSystems (Game.LoadLevel g level).2 = loadLevelOrder
      ∧ (∀ s : SystemId, (addedSystems (Game.LoadLevel g level).2).count s = 1)
      ∧ (∃ g1 trL,
          Game.Run B g frames
            = Except.ok (g1, Call.enter Method.Setup :: (Game.LoadLevel g 1).2 ++ trL)
          ∧ retrievedSystems (Game.LoadLevel g 1).2 = []
          ∧ subscribedSystems (Game.LoadLevel g 1).2 = []
          ∧ addedSystems trL = []
          ∧ retrievedSystems trL ++ subscribedSystems trL
              ⊆ addedSystems (Game.LoadLevel g 1).2)
      ∧ Game.Run B g frames ≠ Except.error GameError.SystemNotFound := by
  refine ⟨addedSystems_LoadLevel g level, ?_, ?_, ?_⟩
  · intro s
    rw [addedSystems_LoadLevel]
    exact count_loadLevelOrder s
  · refine ⟨(Run.iterate B (Game.Setup g).1 frames).1,
      (Run.iterate B (Game.Setup g).1 frames).2, ?_, retrievedSystems_LoadLevel g 1,
      subscribedSystems_LoadLevel g 1, addedSystems_iterate B frames _, ?_⟩
    · rw [Run_registered B g frames, Setup_snd]
    · intro s _
      rw [addedSystems_LoadLevel]
      exact List.count_pos_iff.mp (by rw [count_loadLevelOrder s]; exact Nat.one_pos)
  · rw [Run_registered B g frames]
    intro h
    cases h

/-- C8: `Game::Render` updates RenderSystem, RenderTextSystem and
RenderHealthBarSystem, in that order, for both values of `isDebug`, and after them the
debug-only RenderColliderSystem and RenderGUISystem iff `isDebug` is true.  `isDebug` is
left unchanged by `Render`, `Update`, `LoadLevel` and `Setup`; `ProcessInput` negates it
once for each `SDL_KEYDOWN` of F1, so afterwards it is its prior value XOR (the number of
F1 key-downs polled is odd). -/
theorem C8_debug_systems_iff_isDebug (B : Int) (g : Game) (evs : List SDL_Event)
    (t1 t2 t3 : Nat) (level : Int) (hreg : AllRegistered g.registry) :
    (∃ tr, Game.Render g = Except.ok (g, tr)
        ∧ systemUpdates tr
            = [SystemId.RenderSystem, SystemId.RenderTextSystem,
               SystemId.RenderHealthBarSystem]
              ++ (if g.isDebug then [SystemId.RenderColliderSystem, SystemId.RenderGUISystem]
                  else [])
        ∧ (SystemId.RenderColliderSystem ∈ systemUpdates tr ↔ g.isDebug = true)
        ∧ (SystemId.RenderGUISystem ∈ systemUpdates tr ↔ g.isDebug = true))
      ∧ (Game.ProcessInput g evs).1.isDebug
          = Bool.xor g.isDebug (evs.countP isF1Down % 2 == 1)
      ∧ (∃ g1 tr, Game.Update B g t1 t2 t3 = Except.ok (g1, tr) ∧ g1.isDebug = g.isDebug)
      ∧ (Game.LoadLevel g level).1.isDebug = g.isDebug
      ∧ (Game.Setup g).1.isDebug = g.isDebug := by
  refine ⟨⟨_, Render_registered g hreg, systemUpdates_Render_calls _, ?_, ?_⟩, ?_,
    ⟨_, _, Update_registered B g t1 t2 t3 hreg, rfl⟩, (LoadLevel_flags g level).2.1,
    (Setup_flags g).2⟩
  · rw [systemUpdates_Render_calls]
    cases g.isDebug <;> simp
  · rw [systemUpdates_Render_calls]
    cases g.isDebug <;> simp
  · simp [Game.ProcessInput, poll_isDebug]

/-- C8, instance: `Render`, `ProcessInput`, `Update`, `LoadLevel` and `Setup` on the
loaded game, where every system is registered. -/
theorem C8_debug_systems_iff_isDebug_witness :
    AllRegistered loadedGame.registry
      ∧ (∃ tr, Game.Render loadedGame = Except.ok (loadedGame, tr)
          ∧ systemUpdates tr
              = [SystemId.RenderSystem, SystemId.RenderTextSystem,
                 SystemId.RenderHealthBarSystem]
                ++ (if loadedGame.isDebug
                    then [SystemId.RenderColliderSystem, SystemId.RenderGUISystem]
                    else [])
          ∧ (SystemId.RenderColliderSystem ∈ systemUpdates tr ↔ loadedGame.isDebug = true)
          ∧ (SystemId.RenderGUISystem ∈ systemUpdates tr ↔ loadedGame.isDebug = true))
      ∧ (Game.ProcessInput loadedGame escapeFrame.events).1.isDebug
          = Bool.xor loadedGame.isDebug (escapeFrame.events.countP isF1Down % 2 == 1)
      ∧ (∃ g1 tr, Game.Update 16 loadedGame 0 0 0 = Except.ok (g1, tr)
          ∧ g1.isDebug = loadedGame.isDebug)
      ∧ (Game.LoadLevel loadedGame 1).1.isDebug = loadedGame.isDebug
      ∧ (Game.Setup loadedGame).1.isDebug = loadedGame.isDebug :=
  ⟨loadedGame_registered,
    C8_debug_systems_iff_isDebug 16 loadedGame escapeFrame.events 0 0 0 1
      loadedGame_registered⟩

/-- C9: frame pacing in `Game::Update` is a fixed-budget sleep.  With a budget
`B = MILLISECS_PER_FRAME` that is a positive `int`, and `elapsed` the 32-bit difference of
the tick count and `millisecsPreviousFrame`, `Update` runs to its end and calls `SDL_Delay`
iff `elapsed < B`; it then calls it once, with `B - elapsed`, which lies in `1..B`; when
`elapsed >= B` it makes no delay. -/
theorem C9_frame_pacing (B : Int) (g : Game) (t1 t2 t3 : Nat)
    (hB : 0 < B) (hInt : B < 2147483648) (hreg : AllRegistered g.registry) :
    ∃ g1 tr, Game.Update B g t1 t2 t3 = Except.ok (g1, tr)
      ∧ 0 ≤ u32 (t1 - g.millisecsPreviousFrame)
      ∧ delays tr
          = (if u32 (t1 - g.millisecsPreviousFrame) < B
             then [B - u32 (t1 - g.millisecsPreviousFrame)] else [])
      ∧ (∀ d ∈ delays tr,
          u32 (t1 - g.millisecsPreviousFrame) + d = B ∧ 1 ≤ d ∧ d ≤ B) := by
  refine ⟨_, _, Update_registered B g t1 t2 t3 hreg, ?_, ?_, ?_⟩
  · unfold u32; omega
  · exact delays_Update_calls B g.millisecsPreviousFrame t1 hB hInt
  · intro d hd
    rw [delays_Update_calls B g.millisecsPreviousFrame t1 hB hInt] at hd
    have h0 : 0 ≤ u32 (t1 - g.millisecsPreviousFrame) := by unfold u32; omega
    split_ifs at hd with h
    · simp only [List.mem_singleton] at hd
      omega
    · simp at hd

/-- C9, instance: a budget of 16 ms and a tick count of 5 on the loaded game, whose
`millisecsPreviousFrame` is 0. -/
theorem C9_frame_pacing_witness :
    (0 : Int) < 16 ∧ (16 : Int) < 2147483648 ∧ AllRegistered loadedGame.registry
      ∧ ∃ g1 tr, Game.Update 16 loadedGame 5 5 5 = Except.ok (g1, tr)
        ∧ 0 ≤ u32 (((5 : Nat) : Int) - loadedGame.millisecsPreviousFrame)
        ∧ delays tr
            = (if u32 (((5 : Nat) : Int) - loadedGame.millisecsPreviousFrame) < 16
               then [16 - u32 (((5 : Nat) : Int) - loadedGame.millisecsPreviousFrame)]
               else [])
        ∧ (∀ d ∈ delays tr,
            u32 (((5 : Nat) : Int) - loadedGame.millisecsPreviousFrame) + d = 16
              ∧ 1 ≤ d ∧ d ≤ 16) :=
  ⟨by decide, by decide, loadedGame_registered,
    C9_frame_pacing 16 loadedGame 5 5 5 (by decide) (by decide) loadedGame_registered⟩

/-- C10: in every frame of `Game::Run` the `KeyPressedEvent` emissions of
`ProcessInput` come before that frame's `eventBus->Reset()` and `SubscribeToEvents` calls:
the calls `Run` makes on the event bus are, frame after frame for the iterations it
completes, the emissions for the key-downs of the frame, then `Reset`, then the four
subscriptions.  So the emissions of the first frame come before any subscription, and
between the subscriptions of one frame and the emissions of the next there is no call on
the bus. -/
theorem C10_emissions_precede_reset (B : Int) (g : Game) (frames : List Frame) :
    ∃ g1 tr, Game.Run B g frames = Except.ok (g1, tr)
      ∧ tr.filter isBusCall
          = (frames.take (iterations g.isRunning frames)).flatMap (fun f =>
              (f.events.filter (fun e => e.type == SDL_KEYDOWN)).map
                  (fun e => Call.EmitEvent_KeyPressedEvent e.sym)
              ++ [Call.EventBus_Reset,
                  Call.SubscribeToEvents SystemId.MovementSystem,
                  Call.SubscribeToEvents SystemId.DamageSystem,
                  Call.SubscribeToEvents SystemId.KeyboardControlSystem,
                  Call.SubscribeToEvents SystemId.ProjectileEmitSystem]) := by
  refine ⟨_, _, Run_registered B g frames, ?_⟩
  rw [List.filter_append, busCalls_Setup, busCalls_iterate, (Setup_flags g).1]
  rfl

end GameGee
